import Mathlib

/-!
Shallow embedding of the audio-enhancement pipeline of `src/server.js`
(AudioCraft Studio).

Numeric values flowing through the pipeline (results of JavaScript
`parseFloat`, filter parameters) are modelled as rationals; `NaN` is a
separate constructor, and an absent field is modelled by `Option`.
JavaScript `parseFloat(x) || d` treats both `NaN` and `0` as falsy, which
the model reproduces exactly.  The only irrational quantity is the pitch
frequency ratio `Math.pow(2, semitones / 12)`, modelled with real
exponentiation.
-/

/-- Result of JavaScript `parseFloat` applied to a settings field value:
either `NaN` or a (finite) number, modelled as a rational. -/
inductive JNum where
  | nan : JNum
  | num : ℚ → JNum
deriving DecidableEq, Repr

/-- Raw client settings object as it comes out of `JSON.parse`: each of the
four fields is independently absent or some parsed value (already pushed
through `parseFloat`, see `JNum`). -/
structure RawSettings where
  pitch : Option JNum
  tempo : Option JNum
  warmth : Option JNum
  reverb : Option JNum
deriving DecidableEq, Repr

/-- The settings blob `req.body.settings` handed to `JSON.parse`:
absent (code substitutes the literal string of an empty object), malformed
(`JSON.parse` throws), or successfully parsed. -/
inductive SettingsBlob where
  | absent : SettingsBlob
  | malformed : SettingsBlob
  | parsed : RawSettings → SettingsBlob

/-- `JSON.parse(req.body.settings || String of empty object)` from
`server.js` line 257: absent input parses to the empty object (all fields
absent); malformed input throws (modelled as `Except.error`). -/
def parseSettingsBlob : SettingsBlob → Except Unit RawSettings
  | .absent => .ok ⟨none, none, none, none⟩
  | .malformed => .error ()
  | .parsed r => .ok r

/-- The JavaScript idiom `parseFloat(v) || d` (server.js lines 62-65):
an absent field (`parseFloat` gives `NaN`), a `NaN` result, and a result
of `0` are all falsy, so each of them yields the default `d`; any other
number passes through. -/
def parseFloatOr (v : Option JNum) (d : ℚ) : ℚ :=
  match v with
  | none => d
  | some .nan => d
  | some (.num q) => if q = 0 then d else q

/-- Normalized enhancement settings (the four `const` bindings at
server.js lines 62-65). -/
structure Settings where
  pitchSemitones : ℚ
  tempoPercent : ℚ
  warmthLevel : ℚ
  reverbLevel : ℚ
deriving DecidableEq, Repr

/-- Settings normalization, server.js lines 62-65: each field defaults via
`parseFloat(settings.f) || default` with defaults 0.1, 99.5, 8, 8. -/
def normalizeSettings (raw : RawSettings) : Settings where
  pitchSemitones := parseFloatOr raw.pitch (1/10)
  tempoPercent := parseFloatOr raw.tempo (199/2)
  warmthLevel := parseFloatOr raw.warmth 8
  reverbLevel := parseFloatOr raw.reverb 8

/-- `const pitchRatio = Math.pow(2, pitchSemitones / 12)` (server.js
line 68): the frequency ratio of a pitch shift of `x` semitones. -/
noncomputable def pitchScale (x : ℚ) : ℝ := (2 : ℝ) ^ ((x : ℝ) / 12)

/-- One FFmpeg audio-filter directive, one constructor per directive kind
pushed onto `audioFilters` in server.js lines 71-97.  Parameters appear in
the order they appear in the directive string. -/
inductive FilterStage where
  /-- `atempo=rate` -/
  | atempo : ℚ → FilterStage
  /-- `asetrate=(rate),aresample=(target)` where rate is `44100*pitchRatio` -/
  | asetrate : ℝ → ℚ → FilterStage
  /-- `acompressor=ratio=(r):threshold=(t)dB:makeup=(m)` -/
  | acompressor : ℚ → ℚ → ℚ → FilterStage
  /-- `aecho=(inGain):(outGain):(delay):(decay)` -/
  | aecho : ℚ → ℚ → ℚ → ℚ → FilterStage
  /-- `dynaudnorm=p=(p):s=(s)` -/
  | dynaudnorm : ℚ → ℚ → FilterStage
  /-- `equalizer=f=(f):width_type=h:width=(w):g=(g)` -/
  | equalizer : ℚ → ℚ → ℚ → FilterStage

/-- Position of each directive kind in the fixed build order of
server.js lines 71-97. -/
def stageIdx : FilterStage → ℕ
  | .atempo _ => 0
  | .asetrate _ _ => 1
  | .acompressor _ _ _ => 2
  | .aecho _ _ _ _ => 3
  | .dynaudnorm _ _ => 4
  | .equalizer _ _ _ => 5

/-- The filter chain built inside `processAudioWithEffects`
(server.js lines 71-97), stage by stage in source order:
tempo when `tempoPercent` differs from 100, pitch when `pitchSemitones`
is nonzero, warmth compression when `warmthLevel` is positive, echo when
`reverbLevel` is positive, then the unconditional `dynaudnorm` and
`equalizer` stages. -/
noncomputable def audioFilters (s : Settings) : List FilterStage :=
  (if s.tempoPercent ≠ 100 then [.atempo (s.tempoPercent / 100)] else []) ++
  (if s.pitchSemitones ≠ 0 then
    [.asetrate (44100 * pitchScale s.pitchSemitones) 44100] else []) ++
  (if 0 < s.warmthLevel then
    [.acompressor 2 (-20) (1 + s.warmthLevel / 200)] else []) ++
  (if 0 < s.reverbLevel then
    [.aecho (4/5) (9/10) (s.reverbLevel / 100 * 50) (s.reverbLevel / 100 * (3/10))]
   else []) ++
  [.dynaudnorm (9/10) 5, .equalizer 1000 200 (1/2)]

/-- `checkFFmpeg` (server.js lines 37-54): the availability probe queries
the engine for its format listing; an error resolves `false`
(simulation), success resolves `true`.  The enclosing promise only ever
resolves, never rejects. -/
def checkFFmpeg (query : Except String (List String)) : Bool :=
  match query with
  | .error _ => false
  | .ok _ => true

/-- A user record as relevant to the enhance route: remaining free tracks
and whether `subscription.status` equals the active status. -/
structure User where
  freeTracksLeft : ℤ
  subActive : Bool
deriving DecidableEq, Repr

/-- Credit deduction (server.js lines 274-277 and 311-313): one free
track is consumed unless the subscription is active. -/
def deduct (u : User) : User :=
  if u.subActive then u else { u with freeTracksLeft := u.freeTracksLeft - 1 }

/-- Processing mode reported by the pipeline. -/
inductive Mode where
  | real : Mode
  | simulated : Mode
deriving DecidableEq, Repr

/-- The response the enhance route sends, one constructor per distinct
status/message produced by `app.post` on `/api/audio/enhance`. -/
inductive Response where
  /-- `res.download(path, ...)`, tagged with the processing mode taken -/
  | download : String → Mode → Response
  /-- 403, no credits remaining -/
  | noCredits : Response
  /-- 400, no audio file provided -/
  | noFile : Response
  /-- 500, audio processing failed, carrying the error message -/
  | processingFailed : String → Response
  /-- 500 from the outer catch-all handler -/
  | serverError : Response

/-- Outcome of one invocation of the external engine (the single
`ffmpeg(...).run()` inside `processAudioWithEffects`): completion, or an
error event carrying the engine message; on error the partially written
output file may or may not exist on disk (engine-side fact). -/
inductive EngineOutcome where
  | success : EngineOutcome
  | failure : String → Bool → EngineOutcome

/-- Delay before the scheduled cleanup `setTimeout` runs
(server.js lines 294 and 322): 30000 ms. -/
def cleanupDelayMs : ℕ := 30000

/-- The `try ... catch (cleanupError) ...` around each scheduled unlink
(server.js lines 287-293): whatever the unlink outcome, the cleanup step
completes normally; a failure is only logged. -/
def cleanupAttempt : Except String Unit → Unit
  | .ok _ => ()
  | .error _ => ()

/-- Everything observable about one run of the enhance route. -/
structure EnhanceResult where
  /-- the HTTP response sent -/
  response : Response
  /-- the user record after the request -/
  user : User
  /-- the filter chain built, when `processAudioWithEffects` ran -/
  chain : Option (List FilterStage)
  /-- unlinks scheduled to run after the response, with their delay in ms -/
  delayedUnlinks : List (String × ℕ)
  /-- unlinks performed immediately, before the response is sent -/
  immediateUnlinks : List String
  /-- temporary files still on disk when the handler returns
  (before any delayed cleanup fires) -/
  remainingFiles : List String

/-- The enhance route `app.post` on `/api/audio/enhance`
(server.js lines 234-333), from the point where the caller is
authenticated: credit pre-check (lines 249-251), file presence check
(line 253), settings parse (line 257, a parse failure is caught by the
outer handler which unlinks the upload and answers 500), then either the
real path (engine invocation, credit deduction, download of the output,
delayed cleanup of both files; on engine failure an immediate unlink of
the input and a 500 with the engine message) or the simulation path
(credit deduction, download of the input, delayed cleanup of the input
only). -/
noncomputable def enhance (user : User) (hasFile : Bool) (blob : SettingsBlob)
    (inputPath outputPath : String) (ffmpegAvailable : Bool)
    (engine : EngineOutcome) : EnhanceResult :=
  if user.subActive = false ∧ user.freeTracksLeft ≤ 0 then
    { response := .noCredits, user := user, chain := none,
      delayedUnlinks := [], immediateUnlinks := [],
      remainingFiles := if hasFile then [inputPath] else [] }
  else if hasFile = false then
    { response := .noFile, user := user, chain := none,
      delayedUnlinks := [], immediateUnlinks := [], remainingFiles := [] }
  else
    match parseSettingsBlob blob with
    | .error _ =>
      { response := .serverError, user := user, chain := none,
        delayedUnlinks := [], immediateUnlinks := [inputPath],
        remainingFiles := [] }
    | .ok raw =>
      if ffmpegAvailable then
        match engine with
        | .success =>
          { response := .download outputPath .real,
            user := deduct user,
            chain := some (audioFilters (normalizeSettings raw)),
            delayedUnlinks :=
              [(inputPath, cleanupDelayMs), (outputPath, cleanupDelayMs)],
            immediateUnlinks := [],
            remainingFiles := [inputPath, outputPath] }
        | .failure msg partialOut =>
          { response :=
              .processingFailed (String.append "Audio processing failed: " msg),
            user := user,
            chain := some (audioFilters (normalizeSettings raw)),
            delayedUnlinks := [],
            immediateUnlinks := [inputPath],
            remainingFiles := if partialOut then [outputPath] else [] }
      else
        { response := .download inputPath .simulated,
          user := deduct user,
          chain := none,
          delayedUnlinks := [(inputPath, cleanupDelayMs)],
          immediateUnlinks := [],
          remainingFiles := [inputPath] }

/-- The raw settings produced by parsing an empty settings object (every
field absent), as happens for the blob `{}` substituted when the client
sends no settings. -/
def rawEmptySettings : RawSettings := ⟨none, none, none, none⟩

/-- The raw settings of end-to-end scenario B: pitch 0, tempo 100,
warmth 0, reverb 0 (every field supplied, three of them zero). -/
def rawZeroSettings : RawSettings :=
  ⟨some (.num 0), some (.num 100), some (.num 0), some (.num 0)⟩

/-! ## Helper lemmas -/

lemma parseFloatOr_ne_zero (v : Option JNum) (d : ℚ) (hd : d ≠ 0) :
    parseFloatOr v d ≠ 0 := by
  rcases v with _ | j
  · exact hd
  · rcases j with _ | q
    · exact hd
    · simp only [parseFloatOr]
      split_ifs with h
      · exact hd
      · exact h

lemma mem_ite_singleton {α : Type} (c : Prop) [Decidable c] (x st : α) :
    st ∈ (if c then [x] else []) ↔ c ∧ st = x := by
  split_ifs with h <;> simp [h]

lemma mem_audioFilters (st : FilterStage) (s : Settings) :
    st ∈ audioFilters s ↔
      (s.tempoPercent ≠ 100 ∧ st = .atempo (s.tempoPercent / 100)) ∨
      (s.pitchSemitones ≠ 0 ∧
        st = .asetrate (44100 * pitchScale s.pitchSemitones) 44100) ∨
      (0 < s.warmthLevel ∧ st = .acompressor 2 (-20) (1 + s.warmthLevel / 200)) ∨
      (0 < s.reverbLevel ∧
        st = .aecho (4/5) (9/10) (s.reverbLevel / 100 * 50)
          (s.reverbLevel / 100 * (3/10))) ∨
      st = .dynaudnorm (9/10) 5 ∨ st = .equalizer 1000 200 (1/2) := by
  simp only [audioFilters, List.mem_append, mem_ite_singleton, List.mem_cons,
    List.mem_singleton, List.not_mem_nil, or_false]
  tauto

lemma audioFilters_pairwise (s : Settings) :
    (audioFilters s).Pairwise (fun a b => stageIdx a < stageIdx b) := by
  unfold audioFilters
  split_ifs <;> simp [List.pairwise_append, stageIdx]

lemma audioFilters_length (s : Settings) :
    (audioFilters s).length =
      2 + (if s.tempoPercent ≠ 100 then 1 else 0) +
        (if s.pitchSemitones ≠ 0 then 1 else 0) +
        (if 0 < s.warmthLevel then 1 else 0) +
        (if 0 < s.reverbLevel then 1 else 0) := by
  unfold audioFilters
  split_ifs <;> simp

lemma normalizeSettings_rawEmpty :
    normalizeSettings rawEmptySettings = ⟨1/10, 199/2, 8, 8⟩ := rfl

lemma normalizeSettings_rawZero :
    normalizeSettings rawZeroSettings = ⟨1/10, 100, 8, 8⟩ := by
  simp [normalizeSettings, rawZeroSettings, parseFloatOr]

lemma audioFilters_defaults_length :
    (audioFilters ⟨1/10, 199/2, 8, 8⟩).length = 6 := by
  rw [audioFilters_length]; norm_num

lemma audioFilters_defaults_map :
    (audioFilters ⟨1/10, 199/2, 8, 8⟩).map stageIdx = [0, 1, 2, 3, 4, 5] := by
  unfold audioFilters; norm_num [stageIdx]

lemma audioFilters_zero_length :
    (audioFilters ⟨1/10, 100, 8, 8⟩).length = 5 := by
  rw [audioFilters_length]; norm_num

lemma audioFilters_zero_map :
    (audioFilters ⟨1/10, 100, 8, 8⟩).map stageIdx = [1, 2, 3, 4, 5] := by
  unfold audioFilters; norm_num [stageIdx]

lemma enhance_real_success (user : User) (raw : RawSettings) (ip op : String)
    (h : ¬(user.subActive = false ∧ user.freeTracksLeft ≤ 0)) :
    enhance user true (.parsed raw) ip op true .success =
      ⟨.download op .real, deduct user,
       some (audioFilters (normalizeSettings raw)),
       [(ip, cleanupDelayMs), (op, cleanupDelayMs)], [], [ip, op]⟩ := by
  unfold enhance; rw [if_neg h]; rfl

lemma enhance_engine_failure (user : User) (raw : RawSettings)
    (ip op msg : String) (pout : Bool)
    (h : ¬(user.subActive = false ∧ user.freeTracksLeft ≤ 0)) :
    enhance user true (.parsed raw) ip op true (.failure msg pout) =
      ⟨.processingFailed (String.append "Audio processing failed: " msg), user,
       some (audioFilters (normalizeSettings raw)), [], [ip],
       if pout then [op] else []⟩ := by
  unfold enhance; rw [if_neg h]; rfl

lemma enhance_simulated (user : User) (raw : RawSettings) (ip op : String)
    (eng : EngineOutcome)
    (h : ¬(user.subActive = false ∧ user.freeTracksLeft ≤ 0)) :
    enhance user true (.parsed raw) ip op false eng =
      ⟨.download ip .simulated, deduct user, none,
       [(ip, cleanupDelayMs)], [], [ip]⟩ := by
  unfold enhance; rw [if_neg h]; rfl

lemma enhance_blob_malformed (user : User) (ip op : String) (ffa : Bool)
    (eng : EngineOutcome)
    (h : ¬(user.subActive = false ∧ user.freeTracksLeft ≤ 0)) :
    enhance user true .malformed ip op ffa eng =
      ⟨.serverError, user, none, [], [ip], []⟩ := by
  unfold enhance; rw [if_neg h]; rfl

lemma deduct_nonneg (u : User) (h0 : 0 ≤ u.freeTracksLeft)
    (h : ¬(u.subActive = false ∧ u.freeTracksLeft ≤ 0)) :
    0 ≤ (deduct u).freeTracksLeft := by
  unfold deduct
  rcases hs : u.subActive
  · simp only [hs, Bool.false_eq_true, if_false]
    simp only [hs, true_and] at h
    omega
  · simpa [hs] using h0

lemma enhance_ne_serverError (user : User) (hasFile : Bool)
    (blob : SettingsBlob) (ip op : String) (ffa : Bool) (eng : EngineOutcome)
    (hblob : blob ≠ SettingsBlob.malformed) :
    (enhance user hasFile blob ip op ffa eng).response ≠
      Response.serverError := by
  rcases blob with _ | _ | raw
  · rcases hasFile with _ | _ <;> rcases ffa with _ | _ <;>
      rcases eng with _ | ⟨msg, pout⟩ <;>
      unfold enhance <;> split_ifs <;> simp [parseSettingsBlob]
  · exact absurd rfl hblob
  · rcases hasFile with _ | _ <;> rcases ffa with _ | _ <;>
      rcases eng with _ | ⟨msg, pout⟩ <;>
      unfold enhance <;> split_ifs <;> simp [parseSettingsBlob]

/-! ## Claim theorems -/

/-- Claim C3: for every normalized settings value, the built filter chain
lists its stages in the fixed order tempo, pitch, warmth, reverb,
normalization, EQ; the tempo stage is included exactly when tempoPercent
differs from 100 with rate tempoPercent/100; the pitch stage exactly when
pitchSemitones is nonzero, resampling at 44100 * 2^(pitchSemitones/12)
then back to 44100; the warmth stage exactly when warmthLevel > 0 with
ratio 2:1, threshold -20 dB and makeup gain 1 + warmthLevel/200; the
reverb stage exactly when reverbLevel > 0 with delay (reverbLevel/100)*50
and decay (reverbLevel/100)*0.3; and the normalization and EQ stages are
always included. -/
theorem claimC3 (s : Settings) :
    ((audioFilters s).Pairwise fun a b => stageIdx a < stageIdx b) ∧
    (∀ r, FilterStage.atempo r ∈ audioFilters s ↔
      s.tempoPercent ≠ 100 ∧ r = s.tempoPercent / 100) ∧
    (∀ r t, FilterStage.asetrate r t ∈ audioFilters s ↔
      s.pitchSemitones ≠ 0 ∧
        r = 44100 * (2 : ℝ) ^ ((s.pitchSemitones : ℝ) / 12) ∧ t = 44100) ∧
    (∀ c t m, FilterStage.acompressor c t m ∈ audioFilters s ↔
      0 < s.warmthLevel ∧ c = 2 ∧ t = -20 ∧ m = 1 + s.warmthLevel / 200) ∧
    (∀ g h d c, FilterStage.aecho g h d c ∈ audioFilters s ↔
      0 < s.reverbLevel ∧ g = 4/5 ∧ h = 9/10 ∧
        d = s.reverbLevel / 100 * 50 ∧ c = s.reverbLevel / 100 * (3/10)) ∧
    FilterStage.dynaudnorm (9/10) 5 ∈ audioFilters s ∧
    FilterStage.equalizer 1000 200 (1/2) ∈ audioFilters s := by
  refine ⟨audioFilters_pairwise s, ?_, ?_, ?_, ?_, ?_, ?_⟩
  · intro r
    rw [mem_audioFilters]
    simp [pitchScale]
  · intro r t
    rw [mem_audioFilters]
    simp [pitchScale]
  · intro c t m
    rw [mem_audioFilters]
    simp [pitchScale]
  · intro g h d c
    rw [mem_audioFilters]
    simp [pitchScale]
  · rw [mem_audioFilters]
    simp
  · rw [mem_audioFilters]
    simp

/-- Claim C8: the engine availability probe never throws: for every
outcome of the capability query it returns Available (true) or
Unavailable (false), and every query failure maps to Unavailable. -/
theorem claimC8 :
    (∀ e, checkFFmpeg (Except.error e) = false) ∧
    (∀ fmts, checkFFmpeg (Except.ok fmts) = true) ∧
    (∀ q, checkFFmpeg q = false ∨ checkFFmpeg q = true) := by
  refine ⟨fun e => rfl, fun fmts => rfl, fun q => ?_⟩
  cases q <;> simp [checkFFmpeg]

/-- Claim C9: a supplied field whose numeric coercion yields 0 or NaN is
replaced by that field's default (pitch 0.1, tempo 99.5, warmth 8,
reverb 8); in particular the normalized pitchSemitones is never 0, so
every built filter chain contains a pitch stage and has length at
least 3. -/
theorem claimC9 (raw : RawSettings) (d : ℚ) :
    parseFloatOr (some (JNum.num 0)) d = d ∧
    parseFloatOr (some JNum.nan) d = d ∧
    parseFloatOr none d = d ∧
    normalizeSettings ⟨some (.num 0), some (.num 0), some (.num 0), some (.num 0)⟩ =
      ⟨1/10, 199/2, 8, 8⟩ ∧
    (normalizeSettings raw).pitchSemitones ≠ 0 ∧
    (∃ r t, FilterStage.asetrate r t ∈ audioFilters (normalizeSettings raw)) ∧
    3 ≤ (audioFilters (normalizeSettings raw)).length := by
  have hp : (normalizeSettings raw).pitchSemitones ≠ 0 :=
    parseFloatOr_ne_zero raw.pitch (1/10) (by norm_num)
  refine ⟨by simp [parseFloatOr], rfl, rfl,
    by simp [normalizeSettings, parseFloatOr], hp, ?_, ?_⟩
  · exact ⟨_, _, (mem_audioFilters _ _).mpr (Or.inr (Or.inl ⟨hp, rfl⟩))⟩
  · rw [audioFilters_length, if_pos hp]
    split_ifs <;> omega

/-- Claim C10: the enhance route never drives a non-negative free-track
counter below zero: a non-subscriber with no credits is rejected before
the pipeline runs, and deduction only happens after that check passes. -/
theorem claimC10 (user : User) (hasFile : Bool) (blob : SettingsBlob)
    (ip op : String) (ffa : Bool) (eng : EngineOutcome)
    (h0 : 0 ≤ user.freeTracksLeft) :
    0 ≤ (enhance user hasFile blob ip op ffa eng).user.freeTracksLeft := by
  by_cases hc : user.subActive = false ∧ user.freeTracksLeft ≤ 0
  · unfold enhance
    rw [if_pos hc]
    exact h0
  · have hd := deduct_nonneg user h0 hc
    unfold enhance
    rw [if_neg hc]
    rcases hasFile with _ | _
    · exact h0
    · rcases blob with _ | _ | raw <;> simp only [parseSettingsBlob] <;>
        rcases ffa with _ | _ <;> rcases eng with _ | ⟨msg, pout⟩ <;>
        first
        | exact h0
        | exact hd

/-- Witness for claim C10 at a concrete non-subscriber with 5 credits. -/
theorem claimC10_witness :
    0 ≤ (⟨5, false⟩ : User).freeTracksLeft ∧
    0 ≤ (enhance ⟨5, false⟩ true .absent "in.wav" "out.mp3" true
      .success).user.freeTracksLeft :=
  ⟨by decide, claimC10 ⟨5, false⟩ true .absent "in.wav" "out.mp3" true
    .success (by decide)⟩

/-- Claim C1, counterexample: for the scenario-B settings (pitch 0,
tempo 100, warmth 0, reverb 0) the built chain does NOT have length 2:
the zero-valued fields are replaced by their nonzero defaults, so the
pitch, warmth and reverb stages are all present (length 5). -/
theorem claimC1_cex :
    ¬ (audioFilters (normalizeSettings rawZeroSettings)).length = 2 := by
  rw [normalizeSettings_rawZero, audioFilters_zero_length]
  omega

/-- Claim C1, amended: for the settings input pitch 0, tempo 100,
warmth 0, reverb 0, the built filter chain has length 5 — no tempo stage
(tempoPercent is 100), but pitch, warmth and reverb stages are present
because zero-valued fields fall back to their defaults — and on the Real
path an output is still produced with mode Real. -/
theorem claimC1 (user : User) (ip op : String)
    (h : ¬(user.subActive = false ∧ user.freeTracksLeft ≤ 0)) :
    (audioFilters (normalizeSettings rawZeroSettings)).length = 5 ∧
    (audioFilters (normalizeSettings rawZeroSettings)).map stageIdx =
      [1, 2, 3, 4, 5] ∧
    (enhance user true (.parsed rawZeroSettings) ip op true .success).response =
      Response.download op Mode.real ∧
    (enhance user true (.parsed rawZeroSettings) ip op true .success).chain =
      some (audioFilters (normalizeSettings rawZeroSettings)) ∧
    op ∈ (enhance user true (.parsed rawZeroSettings) ip op true
      .success).remainingFiles := by
  rw [enhance_real_success user rawZeroSettings ip op h, normalizeSettings_rawZero]
  refine ⟨audioFilters_zero_length, audioFilters_zero_map, rfl, rfl, ?_⟩
  simp

/-- Witness for the amended claim C1 at a concrete non-subscriber. -/
theorem claimC1_witness :
    ¬((⟨5, false⟩ : User).subActive = false ∧
        (⟨5, false⟩ : User).freeTracksLeft ≤ 0) ∧
    (enhance ⟨5, false⟩ true (.parsed rawZeroSettings) "in.wav" "out.mp3" true
      .success).response = Response.download "out.mp3" Mode.real :=
  ⟨by decide, (claimC1 ⟨5, false⟩ "in.wav" "out.mp3" (by decide)).2.2.1⟩

/-- Claim C2, counterexample: a malformed settings blob DOES fail the
request — JSON.parse throws, the outer handler answers the generic 500
server error — so settings handling is not failure-free for every raw
input. -/
theorem claimC2_cex :
    (enhance ⟨5, false⟩ true SettingsBlob.malformed "in.wav" "out.mp3" true
      .success).response = Response.serverError := rfl

/-- Claim C2, amended: field-level normalization never fails and each
field is coerced or defaulted — with the extra rule that a coercion
yielding 0 is also replaced by the default — but the request only
survives the settings stage when the blob itself is absent or parseable;
a malformed blob fails the request with the generic server error. -/
theorem claimC2 (user : User) (hasFile : Bool) (blob : SettingsBlob)
    (ip op : String) (ffa : Bool) (eng : EngineOutcome)
    (hblob : blob ≠ SettingsBlob.malformed) :
    (enhance user hasFile blob ip op ffa eng).response ≠ Response.serverError ∧
    (∀ q d, q ≠ 0 → parseFloatOr (some (JNum.num q)) d = q) ∧
    (∀ d, parseFloatOr none d = d) ∧
    (∀ d, parseFloatOr (some JNum.nan) d = d) ∧
    (∀ d, parseFloatOr (some (JNum.num 0)) d = d) := by
  exact ⟨enhance_ne_serverError user hasFile blob ip op ffa eng hblob,
    fun q d hq => by simp [parseFloatOr, hq], fun d => rfl,
    fun d => rfl, fun d => by simp [parseFloatOr]⟩

/-- Witness for the amended claim C2 at a concrete well-formed blob. -/
theorem claimC2_witness :
    (SettingsBlob.absent ≠ SettingsBlob.malformed) ∧
    (enhance ⟨5, false⟩ true SettingsBlob.absent "in.wav" "out.mp3" true
      .success).response ≠ Response.serverError :=
  ⟨by simp, (claimC2 ⟨5, false⟩ true SettingsBlob.absent "in.wav" "out.mp3"
    true .success (by simp)).1⟩

/-- Claim C4, counterexample: at the documented defaults (pitch 0.1,
tempo 99.5, warmth 8, reverb 8) the built chain does NOT consist of only
the two always-on stages: every default is non-neutral, so all four
conditional stages are present. -/
theorem claimC4_cex :
    ¬ (audioFilters ⟨1/10, 199/2, 8, 8⟩).length = 2 := by
  rw [audioFilters_defaults_length]
  omega

/-- Claim C4, amended: for the settings value in which every field equals
its documented default — which is what normalizing an empty settings
object produces — the built filter chain contains all six stages (tempo,
pitch, warmth, reverb, normalization, EQ), not just the two always-on
ones. -/
theorem claimC4 :
    normalizeSettings rawEmptySettings = ⟨1/10, 199/2, 8, 8⟩ ∧
    (audioFilters ⟨1/10, 199/2, 8, 8⟩).length = 6 ∧
    (audioFilters ⟨1/10, 199/2, 8, 8⟩).map stageIdx = [0, 1, 2, 3, 4, 5] :=
  ⟨normalizeSettings_rawEmpty, audioFilters_defaults_length,
    audioFilters_defaults_map⟩

/-- Claim C5: when the probe reports Unavailable, the response downloads
the input path itself (no transformation) in Simulated mode; one credit
is deducted for a non-subscriber while an active subscriber is
unchanged. -/
theorem claimC5 (user : User) (raw : RawSettings) (ip op : String)
    (eng : EngineOutcome)
    (h : ¬(user.subActive = false ∧ user.freeTracksLeft ≤ 0)) :
    (enhance user true (.parsed raw) ip op false eng).response =
      Response.download ip Mode.simulated ∧
    (user.subActive = false →
      (enhance user true (.parsed raw) ip op false eng).user.freeTracksLeft =
        user.freeTracksLeft - 1) ∧
    (user.subActive = true →
      (enhance user true (.parsed raw) ip op false eng).user = user) := by
  rw [enhance_simulated user raw ip op eng h]
  refine ⟨rfl, fun hs => ?_, fun hs => ?_⟩ <;> simp [deduct, hs]

/-- Witness for claim C5 at a concrete non-subscriber with 3 credits. -/
theorem claimC5_witness :
    ¬((⟨3, false⟩ : User).subActive = false ∧
        (⟨3, false⟩ : User).freeTracksLeft ≤ 0) ∧
    (enhance ⟨3, false⟩ true (.parsed rawEmptySettings) "in.wav" "out.mp3"
      false .success).response = Response.download "in.wav" Mode.simulated :=
  ⟨by decide, (claimC5 ⟨3, false⟩ rawEmptySettings "in.wav" "out.mp3"
    .success (by decide)).1⟩

/-- Claim C6, counterexample: after an engine failure the handler only
unlinks the input; if the engine left a partially written output file, it
still exists afterwards — here the run ends with the output file on
disk. -/
theorem claimC6_cex :
    (enhance ⟨5, false⟩ true (.parsed rawEmptySettings) "in.wav" "out.mp3"
      true (.failure "boom" true)).remainingFiles = ["out.mp3"] := rfl

/-- Claim C6, amended: when the engine reports failure the caller gets a
processing failure carrying the engine's message, the input file is
unlinked immediately, no credit is deducted and no cleanup is scheduled;
but the handler never removes the output path, so a partially written
output file (if the engine created one) remains. -/
theorem claimC6 (user : User) (raw : RawSettings) (ip op msg : String)
    (pout : Bool)
    (h : ¬(user.subActive = false ∧ user.freeTracksLeft ≤ 0)) :
    (enhance user true (.parsed raw) ip op true (.failure msg pout)).response =
      Response.processingFailed (String.append "Audio processing failed: " msg) ∧
    (enhance user true (.parsed raw) ip op true (.failure msg pout)).user =
      user ∧
    (enhance user true (.parsed raw) ip op true
      (.failure msg pout)).immediateUnlinks = [ip] ∧
    (enhance user true (.parsed raw) ip op true
      (.failure msg pout)).delayedUnlinks = [] ∧
    (enhance user true (.parsed raw) ip op true
      (.failure msg pout)).remainingFiles = (if pout then [op] else []) := by
  rw [enhance_engine_failure user raw ip op msg pout h]
  exact ⟨rfl, rfl, rfl, rfl, rfl⟩

/-- Witness for the amended claim C6 at a concrete failing run. -/
theorem claimC6_witness :
    ¬((⟨5, false⟩ : User).subActive = false ∧
        (⟨5, false⟩ : User).freeTracksLeft ≤ 0) ∧
    (enhance ⟨5, false⟩ true (.parsed rawEmptySettings) "in.wav" "out.mp3"
      true (.failure "boom" false)).user = (⟨5, false⟩ : User) :=
  ⟨by decide, (claimC6 ⟨5, false⟩ rawEmptySettings "in.wav" "out.mp3" "boom"
    false (by decide)).2.1⟩

/-- Claim C7, counterexample: in a simulated run only the input path is
scheduled for delayed deletion — the output path is never scheduled, so
it is not the case that both paths are always scheduled. -/
theorem claimC7_cex :
    ((enhance ⟨5, false⟩ true (.parsed rawEmptySettings) "in.wav" "out.mp3"
      false .success).delayedUnlinks).map Prod.fst = ["in.wav"] := rfl

/-- Claim C7, amended: on a successful Real run both paths are scheduled
exactly once for deletion after the response, delayed by the fixed
30-second grace period; on a simulated run only the input path is so
scheduled; on an engine failure nothing is scheduled and the input is
unlinked immediately; and a failed deletion never escapes the cleanup
step. -/
theorem claimC7 (user : User) (raw : RawSettings) (ip op msg : String)
    (pout : Bool) (eng : EngineOutcome)
    (h : ¬(user.subActive = false ∧ user.freeTracksLeft ≤ 0)) :
    ((enhance user true (.parsed raw) ip op true .success).delayedUnlinks =
        [(ip, cleanupDelayMs), (op, cleanupDelayMs)] ∧
      (enhance user true (.parsed raw) ip op true .success).immediateUnlinks =
        []) ∧
    ((enhance user true (.parsed raw) ip op false eng).delayedUnlinks =
        [(ip, cleanupDelayMs)] ∧
      (enhance user true (.parsed raw) ip op false eng).immediateUnlinks =
        []) ∧
    ((enhance user true (.parsed raw) ip op true
        (.failure msg pout)).delayedUnlinks = [] ∧
      (enhance user true (.parsed raw) ip op true
        (.failure msg pout)).immediateUnlinks = [ip]) ∧
    (∀ r, cleanupAttempt r = ()) := by
  rw [enhance_real_success user raw ip op h,
    enhance_engine_failure user raw ip op msg pout h,
    enhance_simulated user raw ip op eng h]
  exact ⟨⟨rfl, rfl⟩, ⟨rfl, rfl⟩, ⟨rfl, rfl⟩, fun r => rfl⟩

/-- Witness for the amended claim C7 at a concrete successful run. -/
theorem claimC7_witness :
    ¬((⟨5, false⟩ : User).subActive = false ∧
        (⟨5, false⟩ : User).freeTracksLeft ≤ 0) ∧
    (enhance ⟨5, false⟩ true (.parsed rawEmptySettings) "in.wav" "out.mp3"
      true .success).delayedUnlinks =
      [("in.wav", cleanupDelayMs), ("out.mp3", cleanupDelayMs)] :=
  ⟨by decide, (claimC7 ⟨5, false⟩ rawEmptySettings "in.wav" "out.mp3" "x"
    false .success (by decide)).1.1⟩
